import Mathlib

/-!
# Verification of the sqlite wrapper (src/sqlite.go)

Shallow embedding of the Go package `sqlite`, a thin cgo wrapper around the
SQLite engine. The native engine is modelled abstractly: each wrapper
function is embedded as a Lean function that receives, as extra arguments,
the status codes and diagnostic strings the native calls would return, and
produces the caller-visible result exactly as the Go body computes it.
Void Go functions are embedded with an explicit `Option String` error
channel that is constantly `none`, so that the presence or absence of error
propagation is visible in the semantics.
-/

set_option autoImplicit false

namespace PhomolaSqlite

/-- Native status code SQLITE_OK (success). -/
def SQLITE_OK : Int := 0

/-- Native status code SQLITE_ROW (a result row is available). -/
def SQLITE_ROW : Int := 100

/-- Native status code SQLITE_DONE (execution has completed). -/
def SQLITE_DONE : Int := 101

/-- `Database` mirrors the Go struct: it owns one native handle. The
`sync.Mutex` field is modelled separately by the mutex-operation trace
`mutexOps` below, since the Go code never stores anything in it. -/
structure Database where
  db : Nat
deriving DecidableEq

/-- The error message built by `NewDatabase` on a failed open
(src/sqlite.go line 41, format string "couldn\x27t open database file (%s)"). -/
def openErrorMsg (path : String) : String :=
  "couldn\x27t open database file (" ++ path ++ ")"

/-- `NewDatabase` (src/sqlite.go lines 33-42). `s` is the status returned by
`sqlite3_open` and `handle` the native handle it produced. On SQLITE_OK the
Go code returns a `Database` owning the handle and a nil error; otherwise it
returns nil and an error carrying the path. -/
def NewDatabase (path : String) (s : Int) (handle : Nat) : Except String Database :=
  if s = SQLITE_OK then Except.ok { db := handle }
  else Except.error (openErrorMsg path)

/-- `Database.Execute` (src/sqlite.go lines 61-70). `s` is the status of
`sqlite3_exec` and `errText` the text left in its error out-parameter. The
Go code returns `errors.New(errText)` on any non-OK status, nil otherwise. -/
def Database.Execute (_db : Database) (_sql : String) (s : Int) (errText : String) :
    Option String :=
  if s ≠ SQLITE_OK then some errText else none

/-- `Database.Close` (src/sqlite.go lines 55-58). The body calls
`sqlite3_close` — whose status `s` it discards — and then logs a notice.
The Go function returns nothing, so in the error-channel view the caller
always receives `none`; the second component is the logged text. -/
def Database.Close (_db : Database) (_s : Int) : Option String × String :=
  (none, "database closed")

/-- `Statement` mirrors the Go struct: a native compiled-statement handle
plus a non-owning reference to the producing `Database`. -/
structure Statement where
  stmt : Nat
  db : Database
deriving DecidableEq

/-- `Database.NewStatement` (src/sqlite.go lines 79-88). `s` is the status of
`sqlite3_prepare`, `errmsg` the text `sqlite3_errmsg(db.db)` would return,
and `stmtHandle` the compiled-statement handle produced on success. On a
non-OK status the Go code returns nil and the diagnostic; on success it
returns a `Statement` referencing this database. -/
def Database.NewStatement (db : Database) (_sql : String) (s : Int) (errmsg : String)
    (stmtHandle : Nat) : Except String Statement :=
  if s ≠ SQLITE_OK then Except.error errmsg
  else Except.ok { stmt := stmtHandle, db := db }

/-- `Statement.Step` (src/sqlite.go lines 96-102). `s` is the status of the
single `sqlite3_step` call and `errmsg` the text of
`sqlite3_errmsg(stmt.db.db)`. The Go code returns nil exactly when the
status is SQLITE_DONE, and the diagnostic otherwise. -/
def Statement.Step (_stmt : Statement) (s : Int) (errmsg : String) : Option String :=
  if s ≠ SQLITE_DONE then some errmsg else none

/-- The fixed message built by `Statement.StepRows` on a failing step
(src/sqlite.go line 112). -/
def iterationMsg : String := "stepping through rows didn\x27t finish with DONE"

/-- Observable events of a `StepRows` run: one native step (with its
status), or one invocation of the caller-supplied callback. -/
inductive StepEvent
  | step (s : Int)
  | callback
deriving DecidableEq

/-- `Statement.StepRows` (src/sqlite.go lines 105-117), driven by the list of
statuses the successive `sqlite3_step` calls return. `diag` is the engine
diagnostic (`sqlite3_errmsg`) available at the time of a failing step; the
Go body never consults it — its error is the constant `iterationMsg`.
Returns `none` when the status list is exhausted while the loop is still
running (the engine always answers, so a real run always falls in the
`some` case); otherwise the ordered trace of events together with the error
the caller receives. -/
def Statement.StepRows (stmt : Statement) (diag : String) :
    List Int → Option (List StepEvent × Option String)
  | [] => none
  | s :: rest =>
    if s = SQLITE_ROW then
      match Statement.StepRows stmt diag rest with
      | none => none
      | some (tr, r) => some (StepEvent.step s :: StepEvent.callback :: tr, r)
    else if s ≠ SQLITE_DONE then
      some ([StepEvent.step s], some iterationMsg)
    else
      some ([StepEvent.step s], none)

/-- The trace produced by `n` consecutive SQLITE_ROW steps: each row's step
is immediately followed by one callback invocation. -/
def rowTrace : Nat → List StepEvent
  | 0 => []
  | n + 1 => StepEvent.step SQLITE_ROW :: StepEvent.callback :: rowTrace n

/-- Number of callback invocations recorded in a trace. -/
def callbackCount (tr : List StepEvent) : Nat :=
  tr.countP fun e =>
    match e with
    | StepEvent.callback => true
    | _ => false

/-- Host values marshalled across the boundary. The double payload is kept
as its uninterpreted 64-bit pattern: the wrapper passes it through
bit-identically and never inspects it. -/
inductive Value
  | int (v : Int)
  | int64 (v : Int)
  | double (bits : Nat)
  | text (s : String)
  | blob (b : List UInt8)
deriving DecidableEq

/-- The destructor argument of `sqlite3_bind_text` / `sqlite3_bind_blob`:
SQLITE_TRANSIENT makes the engine store its own private copy of the data;
SQLITE_STATIC makes it keep a reference into the caller buffer. -/
inductive Destructor
  | transient
  | static
deriving DecidableEq

/-- What the engine stores for a bound parameter: its own copy of the value,
or a reference to a caller-owned buffer (identified by a buffer id). -/
inductive BoundVal
  | byValue (v : Value)
  | byRef (buf : Nat)
deriving DecidableEq

/-- Engine-side state of a compiled statement: the bound parameters
(most recent binding of an index first). -/
structure StmtState where
  params : List (Int × BoundVal)
deriving DecidableEq

/-- Record a binding for parameter index `i`. -/
def StmtState.setParam (st : StmtState) (i : Int) (bv : BoundVal) : StmtState :=
  { st with params := (i, bv) :: st.params }

/-- The current binding of parameter index `i`, if any. -/
def StmtState.getParam (st : StmtState) (i : Int) : Option BoundVal :=
  (st.params.find? fun p => p.1 == i).map fun p => p.2

/-- Engine semantics of a scalar `sqlite3_bind_*` call: on a success status
the parameter slot is set to the engine-copied value, otherwise nothing is
bound. Scalar binds carry no destructor — the value is always copied. -/
def engineBindValue (st : StmtState) (i : Int) (v : Value) (s : Int) : StmtState :=
  if s = SQLITE_OK then st.setParam i (BoundVal.byValue v) else st

/-- Engine semantics of `sqlite3_bind_text` / `sqlite3_bind_blob`: with
SQLITE_TRANSIENT the engine stores its own copy of the data; with
SQLITE_STATIC it stores a reference to the caller buffer `buf`. -/
def engineBindData (st : StmtState) (i : Int) (v : Value) (dtor : Destructor)
    (buf : Nat) (s : Int) : StmtState :=
  if s = SQLITE_OK then
    st.setParam i
      (match dtor with
       | Destructor.transient => BoundVal.byValue v
       | Destructor.static => BoundVal.byRef buf)
  else st

/-- `Statement.BindInt` (src/sqlite.go lines 148-150). `s` is the status
returned by `sqlite3_bind_int`; the Go body discards it and the function
returns nothing, so the error channel is constantly `none`. -/
def Statement.BindInt (st : StmtState) (i v s : Int) : StmtState × Option String :=
  (engineBindValue st i (Value.int v) s, none)

/-- `Statement.BindInt64` (src/sqlite.go lines 153-155); status discarded. -/
def Statement.BindInt64 (st : StmtState) (i v s : Int) : StmtState × Option String :=
  (engineBindValue st i (Value.int64 v) s, none)

/-- `Statement.BindDouble` (src/sqlite.go lines 158-160); status discarded. -/
def Statement.BindDouble (st : StmtState) (i : Int) (bits : Nat) (s : Int) :
    StmtState × Option String :=
  (engineBindValue st i (Value.double bits) s, none)

/-- `Statement.BindText` (src/sqlite.go lines 163-167): the Go body copies
`val` into a fresh C string (freed on return) and passes SQLITE_TRANSIENT,
so the engine stores its own copy. `buf` identifies the caller buffer that
a SQLITE_STATIC bind would instead have referenced. The bind status `s` is
discarded. -/
def Statement.BindText (st : StmtState) (i : Int) (val : String) (buf : Nat) (s : Int) :
    StmtState × Option String :=
  (engineBindData st i (Value.text val) Destructor.transient buf s, none)

/-- `Statement.BindBlob` (src/sqlite.go lines 170-174): the Go body copies
`b` via `C.CBytes` (freed on return) and passes SQLITE_TRANSIENT, so the
engine stores its own copy. The bind status `s` is discarded. -/
def Statement.BindBlob (st : StmtState) (i : Int) (b : List UInt8) (buf : Nat) (s : Int) :
    StmtState × Option String :=
  (engineBindData st i (Value.blob b) Destructor.transient buf s, none)

/-- Read a stored binding through the current contents of the caller-owned
buffers: an engine-owned copy is returned as is, a SQLITE_STATIC reference
reads whatever the caller buffer holds now. -/
def resolveBound (heap : Nat → Value) : BoundVal → Value
  | BoundVal.byValue v => v
  | BoundVal.byRef buf => heap buf

/-- The value the engine sees for parameter `i` at execution time, given the
caller-buffer contents `heap` at that time. -/
def readParam (heap : Nat → Value) (st : StmtState) (i : Int) : Option Value :=
  (st.getParam i).map (resolveBound heap)

/-- The current result row as the engine reports it: for each column index,
the text pointer (`none` = NULL) as returned by `sqlite3_column_text`, the
blob pointer (`none` = NULL, `some b` = engine buffer id `b`) as returned
by `sqlite3_column_blob`, and the byte count of `sqlite3_column_bytes`. -/
structure Row where
  colText : Int → Option String
  colPtr : Int → Option Nat
  colBytes : Int → Nat

/-- `C.GoString`: converts a C string to a Go string; a NULL pointer yields
the empty string. -/
def GoString : Option String → String
  | none => ""
  | some s => s

/-- `C.GoBytes`: copies `len` bytes out of the engine buffer into a fresh
caller-owned slice; with a NULL pointer (the engine then reports zero
bytes) the result is empty. `mem` maps buffer ids to their contents. -/
def GoBytes (mem : Nat → List UInt8) (p : Option Nat) (len : Nat) : List UInt8 :=
  match p with
  | none => []
  | some b => (mem b).take len

/-- `Statement.ColumnText` (src/sqlite.go lines 135-138): `GoString` of the
`sqlite3_column_text` result. -/
def Statement.ColumnText (row : Row) (i : Int) : String :=
  GoString (row.colText i)

/-- `Statement.ColumnBlob` (src/sqlite.go lines 141-145): reads the blob
pointer and the byte count, then copies that many bytes out with
`C.GoBytes`. `mem` is the engine buffer memory at call time. -/
def Statement.ColumnBlob (mem : Nat → List UInt8) (row : Row) (i : Int) : List UInt8 :=
  GoBytes mem (row.colPtr i) (row.colBytes i)

/-- The exported operations of the package. -/
inductive Op
  | newDatabase
  | lock
  | unlock
  | close
  | execute
  | newStatement
  | stmtClose
  | step
  | stepRows
  | columnInt
  | columnInt64
  | columnDouble
  | columnText
  | columnBlob
  | bindInt
  | bindInt64
  | bindDouble
  | bindText
  | bindBlob
deriving DecidableEq

/-- Operations on the connection mutex. -/
inductive MutexOp
  | acquire
  | release
deriving DecidableEq

/-- The `sync.Mutex` operations performed by the body of each exported
function of src/sqlite.go, in order, read off the source: only `Lock`
(line 46) and `Unlock` (line 51) reference `db.lock`; no other body
mentions the mutex. -/
def mutexOps : Op → List MutexOp
  | Op.newDatabase => []
  | Op.lock => [MutexOp.acquire]
  | Op.unlock => [MutexOp.release]
  | Op.close => []
  | Op.execute => []
  | Op.newStatement => []
  | Op.stmtClose => []
  | Op.step => []
  | Op.stepRows => []
  | Op.columnInt => []
  | Op.columnInt64 => []
  | Op.columnDouble => []
  | Op.columnText => []
  | Op.columnBlob => []
  | Op.bindInt => []
  | Op.bindInt64 => []
  | Op.bindDouble => []
  | Op.bindText => []
  | Op.bindBlob => []

/-! ## Theorems -/

/-- C1 counterexample: the native bind status SQLITE_RANGE (25) and a failing
close status (21, SQLITE_MISUSE) are non-success, yet `BindInt` and
`Database.Close` deliver no error to the caller — the Go functions have no
error return, so the status is discarded rather than surfaced. -/
theorem bindInt_close_discard_nonsuccess :
    ((25 : Int) ≠ SQLITE_OK ∧
      (Statement.BindInt { params := [] } 1 7 25).2 = none) ∧
    ((21 : Int) ≠ SQLITE_OK ∧
      (Database.Close { db := 0 } 21).1 = none) := by
  decide

/-- Running `StepRows` over `n` row statuses followed by any non-row final
status yields the alternating step/callback trace of the `n` rows, the
final step, and then `none` on SQLITE_DONE or the fixed iteration message
otherwise. -/
theorem stepRows_replicate (stmt : Statement) (diag : String) (n : Nat) (last : Int)
    (h : last ≠ SQLITE_ROW) :
    Statement.StepRows stmt diag (List.replicate n SQLITE_ROW ++ [last]) =
      some (rowTrace n ++ [StepEvent.step last],
        if last = SQLITE_DONE then none else some iterationMsg) := by
  induction n with
  | zero =>
    have hdr : ¬ SQLITE_DONE = SQLITE_ROW := by decide
    by_cases hd : last = SQLITE_DONE <;>
      simp [Statement.StepRows, rowTrace, h, hd, hdr]
  | succ n ih =>
    simp [List.replicate_succ, Statement.StepRows, rowTrace, ih]

/-- C1 (amended): the operations with an error return — `NewDatabase`,
`Execute`, `NewStatement`, `Step`, `StepRows` — surface every native
non-success status to the caller as an error carrying the available
diagnostic text (the path, for open; a fixed message, for row iteration),
while the five parameter binders and `Database.Close` have no error return
and discard any non-success status of their native calls. -/
theorem error_surfacing_amended (path sql errText errmsg txt diag : String)
    (s1 s2 s3 s4 s5 s6 : Int) (n : Nat) (handle stmtHandle buf : Nat) (d : Database)
    (stmt : Statement) (st : StmtState) (i v : Int) (bits : Nat) (bl : List UInt8)
    (h1 : s1 ≠ SQLITE_OK) (h2 : s2 ≠ SQLITE_OK) (h3 : s3 ≠ SQLITE_OK)
    (h4 : s4 ≠ SQLITE_DONE) (h5 : s6 ≠ SQLITE_ROW) (h6 : s6 ≠ SQLITE_DONE) :
    NewDatabase path s1 handle = Except.error (openErrorMsg path) ∧
    d.Execute sql s2 errText = some errText ∧
    d.NewStatement sql s3 errmsg stmtHandle = Except.error errmsg ∧
    stmt.Step s4 errmsg = some errmsg ∧
    Statement.StepRows stmt diag (List.replicate n SQLITE_ROW ++ [s6]) =
      some (rowTrace n ++ [StepEvent.step s6], some iterationMsg) ∧
    (Statement.BindInt st i v s5).2 = none ∧
    (Statement.BindInt64 st i v s5).2 = none ∧
    (Statement.BindDouble st i bits s5).2 = none ∧
    (Statement.BindText st i txt buf s5).2 = none ∧
    (Statement.BindBlob st i bl buf s5).2 = none ∧
    (d.Close s5).1 = none := by
  refine ⟨?_, ?_, ?_, ?_, ?_, rfl, rfl, rfl, rfl, rfl, rfl⟩
  · simp [NewDatabase, h1]
  · simp [Database.Execute, h2]
  · simp [Database.NewStatement, h3]
  · simp [Statement.Step, h4]
  · simpa [h6] using stepRows_replicate stmt diag n s6 h5

/-- Witness for the amended C1 theorem at concrete inputs: open status 1,
exec status 5, prepare status 1, step status 100 (a row), bind status 25,
and a one-row iteration ending in the failing status 5. -/
theorem error_surfacing_amended_witness :
    NewDatabase "test.db" 1 3 = Except.error (openErrorMsg "test.db") ∧
    Database.Execute { db := 0 } "CREATE TABLE t" 5 "database is locked" =
      some "database is locked" ∧
    Database.NewStatement { db := 0 } "CREATE TABLE t" 1 "syntax error" 4 =
      Except.error "syntax error" ∧
    Statement.Step { stmt := 0, db := { db := 0 } } 100 "syntax error" =
      some "syntax error" ∧
    Statement.StepRows { stmt := 0, db := { db := 0 } } "database is locked"
      (List.replicate 1 SQLITE_ROW ++ [5]) =
      some (rowTrace 1 ++ [StepEvent.step 5], some iterationMsg) ∧
    (Statement.BindInt { params := [] } 1 42 25).2 = none ∧
    (Statement.BindInt64 { params := [] } 1 42 25).2 = none ∧
    (Statement.BindDouble { params := [] } 1 9 25).2 = none ∧
    (Statement.BindText { params := [] } 1 "x" 0 25).2 = none ∧
    (Statement.BindBlob { params := [] } 1 [] 0 25).2 = none ∧
    (Database.Close { db := 0 } 25).1 = none :=
  error_surfacing_amended "test.db" "CREATE TABLE t" "database is locked"
    "syntax error" "x" "database is locked" 1 5 1 100 25 5 1 3 4 0 { db := 0 }
    { stmt := 0, db := { db := 0 } } { params := [] } 1 42 9 []
    (by decide) (by decide) (by decide) (by decide) (by decide) (by decide)

/-- C4: `Statement.Step` returns no error exactly when the single native
step reports SQLITE_DONE; any other status — including SQLITE_ROW — is
returned as an error carrying the engine diagnostic. -/
theorem step_none_iff_done (stmt : Statement) (s : Int) (errmsg : String)
    (h : s ≠ SQLITE_DONE) :
    stmt.Step SQLITE_DONE errmsg = none ∧
    stmt.Step s errmsg = some errmsg ∧
    stmt.Step s errmsg ≠ none := by
  refine ⟨by simp [Statement.Step], ?_, ?_⟩ <;> simp [Statement.Step, h]

/-- Witness for C4 at the row status SQLITE_ROW. -/
theorem step_none_iff_done_witness :
    Statement.Step { stmt := 0, db := { db := 0 } } SQLITE_DONE "misuse" = none ∧
    Statement.Step { stmt := 0, db := { db := 0 } } SQLITE_ROW "misuse" = some "misuse" ∧
    Statement.Step { stmt := 0, db := { db := 0 } } SQLITE_ROW "misuse" ≠ none :=
  step_none_iff_done { stmt := 0, db := { db := 0 } } SQLITE_ROW "misuse" (by decide)

/-- C5: on a non-success prepare status `NewStatement` returns the engine
diagnostic and no Statement; on SQLITE_OK it returns a Statement holding
the compiled handle and referencing this very connection. -/
theorem newStatement_spec (db : Database) (sql errmsg : String) (sFail : Int)
    (stmtHandle : Nat) (h : sFail ≠ SQLITE_OK) :
    db.NewStatement sql sFail errmsg stmtHandle = Except.error errmsg ∧
    db.NewStatement sql SQLITE_OK errmsg stmtHandle =
      Except.ok { stmt := stmtHandle, db := db } ∧
    ({ stmt := stmtHandle, db := db } : Statement).db = db := by
  refine ⟨?_, ?_, rfl⟩ <;> simp [Database.NewStatement, h]

/-- Witness for C5: prepare status 1 (SQLITE_ERROR) on a misspelled query. -/
theorem newStatement_spec_witness :
    Database.NewStatement { db := 0 } "SELEC * FROM t" 1 "syntax error" 4 =
      Except.error "syntax error" ∧
    Database.NewStatement { db := 0 } "SELEC * FROM t" SQLITE_OK "syntax error" 4 =
      Except.ok { stmt := 4, db := { db := 0 } } ∧
    ({ stmt := 4, db := { db := 0 } } : Statement).db = { db := 0 } :=
  newStatement_spec { db := 0 } "SELEC * FROM t" "syntax error" 1 4 (by decide)

/-- C6: only the `Lock` and `Unlock` bodies touch the connection mutex —
every other operation of the layer performs no mutex operation at all. -/
theorem mutex_only_lock_unlock (op : Op) (h1 : op ≠ Op.lock) (h2 : op ≠ Op.unlock) :
    mutexOps op = [] ∧
    mutexOps Op.lock = [MutexOp.acquire] ∧
    mutexOps Op.unlock = [MutexOp.release] := by
  refine ⟨?_, rfl, rfl⟩
  cases op <;> first | rfl | exact absurd rfl h1 | exact absurd rfl h2

/-- Witness for C6 at the Execute operation. -/
theorem mutex_only_lock_unlock_witness :
    mutexOps Op.execute = [] ∧
    mutexOps Op.lock = [MutexOp.acquire] ∧
    mutexOps Op.unlock = [MutexOp.release] :=
  mutex_only_lock_unlock Op.execute (by decide) (by decide)

/-- C7: a failing open returns no connection and an error whose message
contains the path; a successful open returns a connection owning the
native handle. -/
theorem newDatabase_spec (path : String) (sFail : Int) (handle : Nat)
    (h : sFail ≠ SQLITE_OK) :
    NewDatabase path SQLITE_OK handle = Except.ok { db := handle } ∧
    NewDatabase path sFail handle = Except.error (openErrorMsg path) ∧
    path.data <:+: (openErrorMsg path).data := by
  refine ⟨by simp [NewDatabase], by simp [NewDatabase, h], ?_⟩
  refine ⟨("couldn\x27t open database file (" : String).data, (")" : String).data, ?_⟩
  simp [openErrorMsg, String.data_append]

/-- Witness for C7 at path "test.db" and open status 1. -/
theorem newDatabase_spec_witness :
    NewDatabase "test.db" SQLITE_OK 3 = Except.ok { db := 3 } ∧
    NewDatabase "test.db" 1 3 = Except.error (openErrorMsg "test.db") ∧
    ("test.db" : String).data <:+: (openErrorMsg "test.db").data :=
  newDatabase_spec "test.db" 1 3 (by decide)

/-- C10: the column accessors are total and never signal an error; when the
engine reports a NULL pointer for the column, `ColumnText` returns the
empty string (`C.GoString` of NULL) and `ColumnBlob` returns the empty
byte sequence. -/
theorem column_null_total (mem : Nat → List UInt8) (row : Row) (i : Int)
    (h1 : row.colText i = none) (h2 : row.colPtr i = none) :
    Statement.ColumnText row i = "" ∧ Statement.ColumnBlob mem row i = [] := by
  constructor <;>
    simp [Statement.ColumnText, Statement.ColumnBlob, GoString, GoBytes, h1, h2]

/-- A concrete all-NULL row used as witness input. -/
def row0 : Row :=
  { colText := fun _ => none, colPtr := fun _ => none, colBytes := fun _ => 0 }

/-- A concrete empty engine memory used as witness input. -/
def mem0 : Nat → List UInt8 := fun _ => []

/-- Witness for C10 on an all-NULL row. -/
theorem column_null_total_witness :
    Statement.ColumnText row0 0 = "" ∧ Statement.ColumnBlob mem0 row0 0 = [] :=
  column_null_total mem0 row0 0 rfl rfl

/-- Each row of the trace contributes exactly one callback; the final step
contributes none. -/
theorem callbackCount_rowTrace_append (n : Nat) (x : Int) :
    callbackCount (rowTrace n ++ [StepEvent.step x]) = n := by
  induction n with
  | zero => rfl
  | succ n ih =>
    simp only [rowTrace, callbackCount, List.cons_append, List.countP_cons] at ih ⊢
    simp_all

/-- C3: on `n` row statuses followed by SQLITE_DONE, `StepRows` invokes the
callback exactly `n` times, each invocation directly after that row's step
and before the next step, then returns no error; on `n` row statuses
followed by a failing status, the callback runs exactly for the `n` rows
produced before the failure. -/
theorem stepRows_callback_per_row (stmt : Statement) (diag : String) (n : Nat)
    (f : Int) (h1 : f ≠ SQLITE_ROW) (h2 : f ≠ SQLITE_DONE) :
    Statement.StepRows stmt diag (List.replicate n SQLITE_ROW ++ [SQLITE_DONE]) =
      some (rowTrace n ++ [StepEvent.step SQLITE_DONE], none) ∧
    callbackCount (rowTrace n ++ [StepEvent.step SQLITE_DONE]) = n ∧
    Statement.StepRows stmt diag (List.replicate n SQLITE_ROW ++ [f]) =
      some (rowTrace n ++ [StepEvent.step f], some iterationMsg) ∧
    callbackCount (rowTrace n ++ [StepEvent.step f]) = n := by
  refine ⟨?_, callbackCount_rowTrace_append n SQLITE_DONE, ?_,
    callbackCount_rowTrace_append n f⟩
  · simpa using stepRows_replicate stmt diag n SQLITE_DONE (by decide)
  · simpa [h2] using stepRows_replicate stmt diag n f h1

/-- Witness for C3 with two rows and the failing status 5. -/
theorem stepRows_callback_per_row_witness :
    Statement.StepRows { stmt := 0, db := { db := 0 } } "database is locked"
      (List.replicate 2 SQLITE_ROW ++ [SQLITE_DONE]) =
      some (rowTrace 2 ++ [StepEvent.step SQLITE_DONE], none) ∧
    callbackCount (rowTrace 2 ++ [StepEvent.step SQLITE_DONE]) = 2 ∧
    Statement.StepRows { stmt := 0, db := { db := 0 } } "database is locked"
      (List.replicate 2 SQLITE_ROW ++ [5]) =
      some (rowTrace 2 ++ [StepEvent.step 5], some iterationMsg) ∧
    callbackCount (rowTrace 2 ++ [StepEvent.step 5]) = 2 :=
  stepRows_callback_per_row { stmt := 0, db := { db := 0 } } "database is locked" 2 5
    (by decide) (by decide)

/-- C2 counterexample: on the single failing status 5 (SQLITE_BUSY), whose
engine diagnostic would be "database is locked", `StepRows` returns its
fixed message — which does not contain that diagnostic text. -/
theorem stepRows_message_not_diagnostic :
    Statement.StepRows { stmt := 0, db := { db := 0 } } "database is locked" [5] =
      some ([StepEvent.step 5], some iterationMsg) ∧
    ¬ ("database is locked" : String).data <:+: iterationMsg.data := by
  constructor
  · rfl
  · decide

/-- C2 (amended): for every step-status sequence whose final status is
neither row nor done, `StepRows` fails with an IterationError whose message
is the fixed string "stepping through rows didn\x27t finish with DONE"; the
message does not include the engine diagnostic. -/
theorem stepRows_fixed_error (stmt : Statement) (diag : String) (n : Nat) (f : Int)
    (h1 : f ≠ SQLITE_ROW) (h2 : f ≠ SQLITE_DONE) :
    Statement.StepRows stmt diag (List.replicate n SQLITE_ROW ++ [f]) =
      some (rowTrace n ++ [StepEvent.step f], some iterationMsg) := by
  simpa [h2] using stepRows_replicate stmt diag n f h1

/-- Witness for the amended C2 theorem: one row, then failing status 5. -/
theorem stepRows_fixed_error_witness :
    Statement.StepRows { stmt := 0, db := { db := 0 } } "database is locked"
      (List.replicate 1 SQLITE_ROW ++ [5]) =
      some (rowTrace 1 ++ [StepEvent.step 5], some iterationMsg) :=
  stepRows_fixed_error { stmt := 0, db := { db := 0 } } "database is locked" 1 5
    (by decide) (by decide)

/-- C8: `BindText` and `BindBlob` pass SQLITE_TRANSIENT, so on a successful
bind the engine owns a private copy of the data made at call time: whatever
the caller buffers hold at execution time (any `heap`), the value read for
the parameter is the argument value as it was when the bind returned. -/
theorem bind_text_blob_copy (st : StmtState) (i : Int) (txt : String)
    (bl : List UInt8) (buf : Nat) (heap : Nat → Value) :
    readParam heap (Statement.BindText st i txt buf SQLITE_OK).1 i =
      some (Value.text txt) ∧
    readParam heap (Statement.BindBlob st i bl buf SQLITE_OK).1 i =
      some (Value.blob bl) := by
  constructor <;>
    simp [readParam, Statement.BindText, Statement.BindBlob, engineBindData,
      StmtState.setParam, StmtState.getParam, resolveBound]

/-- C9: `ColumnBlob` returns the engine buffer contents copied at call time,
sized exactly to the stored length the engine reports — including length
zero. Being a `C.GoBytes` copy built from call-time memory, the value is
independent of any later mutation of the statement buffer. -/
theorem columnBlob_exact_copy (mem : Nat → List UInt8) (row : Row) (i : Int)
    (b : Nat) (h1 : row.colPtr i = some b) (h2 : row.colBytes i = (mem b).length) :
    Statement.ColumnBlob mem row i = mem b ∧
    (Statement.ColumnBlob mem row i).length = row.colBytes i := by
  constructor <;> simp [Statement.ColumnBlob, GoBytes, h1, h2]

/-- A concrete three-byte engine buffer used as witness input. -/
def mem1 : Nat → List UInt8 := fun _ => [1, 2, 3]

/-- A concrete row whose column 0 is a three-byte blob in buffer 0. -/
def row1 : Row :=
  { colText := fun _ => none, colPtr := fun _ => some 0, colBytes := fun _ => 3 }

/-- Witness for C9 on the three-byte blob row. -/
theorem columnBlob_exact_copy_witness :
    Statement.ColumnBlob mem1 row1 0 = mem1 0 ∧
    (Statement.ColumnBlob mem1 row1 0).length = row1.colBytes 0 :=
  columnBlob_exact_copy mem1 row1 0 0 rfl rfl

end PhomolaSqlite
